import Mathlib

/-!
Verification of the INIT-CQRS-HEXAGONAL repository core: domain entities
(`Token`, `User`), the application handlers (`handle_create_user`,
`handle_login_user`, `handle_validate_token`), the SQLAlchemy repository
adapters, and the RabbitMQ consumer callback, shallowly embedded in Lean.

Conventions of the embedding:
* Python exceptions are modelled by the `PyErr` type; fallible code returns
  `Except PyErr α`.
* `datetime` values are modelled by `PyDatetime`: an integer instant `t`
  (seconds on the UTC timeline, i.e. the wall-clock reading) together with an
  `aware` flag (`tzinfo is None` ↔ `aware = false`; the only timezone used by
  the code is UTC).  Python raises `TypeError` when ordering a naive and an
  aware datetime; `PyDatetime.le` mirrors this.
* The current instant is passed explicitly: a call that reads the clock
  (`datetime.now(timezone.utc)`, `datetime.utcnow()`) takes `now : Int`.
* Repository state is explicit: lists of rows/entities, threaded through the
  handlers; `save` appends (commit success) or fails.
-/

/-- Python exception values, as far as the handlers distinguish them. -/
inductive PyErr where
  /-- `ValueError(msg)` -/
  | valueError (msg : String)
  /-- `TypeError` (naive/aware datetime comparison, missing call argument, …) -/
  | typeError
  /-- `KeyError` from a missing mapping key -/
  | keyError
  /-- `RuntimeError(msg)` -/
  | runtimeError (msg : String)
  /-- `InvalidEmailError(msg)` from `app.users.domain.models` -/
  | invalidEmailError (msg : String)
  deriving DecidableEq, Repr

instance {ε α : Type} [DecidableEq ε] [DecidableEq α] : DecidableEq (Except ε α) := fun a b =>
  match a, b with
  | .error e1, .error e2 =>
    if h : e1 = e2 then .isTrue (by rw [h]) else .isFalse (by intro hh; cases hh; exact h rfl)
  | .error _, .ok _ => .isFalse (by intro hh; cases hh)
  | .ok _, .error _ => .isFalse (by intro hh; cases hh)
  | .ok v1, .ok v2 =>
    if h : v1 = v2 then .isTrue (by rw [h]) else .isFalse (by intro hh; cases hh; exact h rfl)

/-- Rendering `str(e)` as used when an exception is interpolated into a wrapper message. -/
def PyErr.render : PyErr → String
  | .valueError msg => msg
  | .typeError => "TypeError"
  | .keyError => "KeyError"
  | .runtimeError msg => msg
  | .invalidEmailError msg => msg

/-- A Python `datetime`: an instant `t` (seconds, UTC wall-clock reading) and
whether the value is timezone-aware (`tzinfo = timezone.utc`) or naive. -/
structure PyDatetime where
  t : Int
  aware : Bool
  deriving DecidableEq, Repr

/-- Model of `datetime.now(timezone.utc)` at model instant `now`: aware. -/
def PyDatetime.nowUtc (now : Int) : PyDatetime := ⟨now, true⟩

/-- Model of `datetime.utcnow()` at model instant `now`: the same wall-clock reading,
but naive (`tzinfo is None`). -/
def PyDatetime.utcnow (now : Int) : PyDatetime := ⟨now, false⟩

/-- Comparison `a <= b` on datetimes.  Python raises `TypeError` when exactly one of the
two operands is naive; otherwise it compares the instants. -/
def PyDatetime.le (a b : PyDatetime) : Except PyErr Bool :=
  if a.aware = b.aware then .ok (a.t ≤ b.t) else .error .typeError

/-- Model of `dt.replace(tzinfo=timezone.utc)`: same wall-clock reading, made aware. -/
def PyDatetime.replaceUtc (dt : PyDatetime) : PyDatetime := ⟨dt.t, true⟩

/-- Model of `dt.isoformat()`, modelled as an injective rendering of the value. -/
def PyDatetime.isoformat (dt : PyDatetime) : String :=
  toString dt.t ++ (if dt.aware then "+00:00" else "")

/-- Entity `app.auth.domain.models.Token`: four string fields plus expiry. -/
structure Token where
  id : String
  user_id : String
  access_token : String
  expires_at : PyDatetime
  deriving DecidableEq, Repr

/-- Constructor `Token.__init__` (src/app/auth/domain/models.py, lines 15-34), evaluated at
model instant `now`.  Source:
  - `if not token_id or not user_id or not access_token or not expires_at:`
    raises `ValueError` (a datetime is always truthy, so the last disjunct is
    never the reason for a datetime argument);
  - `if expires_at <= datetime.now(timezone.utc): raise ValueError(...)` —
    note this comparison is NOT normalized, so a naive `expires_at` raises
    `TypeError` here;
  - otherwise the four fields are stored. -/
def Token.init (token_id user_id access_token : String) (expires_at : PyDatetime)
    (now : Int) : Except PyErr Token :=
  if token_id = "" ∨ user_id = "" ∨ access_token = "" then
    .error (.valueError "Todos los campos del token son obligatorios.")
  else
    match expires_at.le (PyDatetime.nowUtc now) with
    | .error e => .error e
    | .ok true => .error (.valueError "La fecha de expiración debe ser futura.")
    | .ok false => .ok ⟨token_id, user_id, access_token, expires_at⟩

/-- Method `Token.is_expired` (src/app/auth/domain/models.py, lines 58-77), evaluated
at model instant `now`.  Source: take `now = datetime.now(timezone.utc)`;
if `expires_at.tzinfo is None`, replace it with the same reading made aware
(naive treated as UTC); then return `expires_at <= now` through the datetime
comparison (which can in principle raise, hence the `Except`). -/
def Token.is_expired (tok : Token) (now : Int) : Except PyErr Bool :=
  let expires_at := tok.expires_at
  let expires_at := if expires_at.aware = false then expires_at.replaceUtc else expires_at
  expires_at.le (PyDatetime.nowUtc now)

/-- Helper `calculate_expires_at(hours)` (src/app/auth/application/commands/handlers.py,
lines 107-110, identical copy in the API routes module):
`datetime.utcnow() + timedelta(hours=hours)` — a NAIVE datetime. -/
def calculate_expires_at (hours : Int) (now : Int) : PyDatetime :=
  ⟨now + hours * 3600, false⟩

/-- Python `str.lower()` restricted to ASCII, which is all this code base
stores and compares. -/
def pyLower (s : String) : String := ⟨s.data.map Char.toLower⟩

/-- Try every decomposition `s = a ++ b` and test `p a b`; `anySplit p s` is
`true` iff some decomposition passes.  This is the backtracking search a
regex engine performs at a subpattern boundary. -/
def anySplit (p : List Char → List Char → Bool) : List Char → Bool
  | [] => p [] []
  | x :: xs => p [] (x :: xs) || anySplit (fun a b => p (x :: a) b) xs

/-- Class `[a-zA-Z]` -/
def isAsciiAlpha (c : Char) : Bool :=
  ('a' ≤ c && c ≤ 'z') || ('A' ≤ c && c ≤ 'Z')

/-- Class `[a-zA-Z0-9]` -/
def isAsciiAlnum (c : Char) : Bool :=
  isAsciiAlpha c || ('0' ≤ c && c ≤ '9')

/-- The local-part class of the code's email pattern: `[a-zA-Z0-9._%+-]`. -/
def isLocalChar (c : Char) : Bool :=
  isAsciiAlnum c || c = '.' || c = '_' || c = '%' || c = '+' || c = '-'

/-- The domain class of the code's email pattern: `[a-zA-Z0-9.-]`. -/
def isDomainChar (c : Char) : Bool :=
  isAsciiAlnum c || c = '.' || c = '-'

/-- Matcher for the tail subpattern `\.[a-zA-Z]\x7b2,\x7d`: a literal dot
followed by at least two ASCII letters covering the rest of the candidate
segment (the final `$` anchoring position is chosen by `pyDollarAnchored`). -/
def emailTldMatch : List Char → Bool
  | [] => false
  | c :: tl => c == '.' && decide (2 ≤ tl.length) && tl.all isAsciiAlpha

/-- Matcher for the subpattern `@D+\.[a-zA-Z]\x7b2,\x7d` with domain class
`D`: a literal `'@'`, then some decomposition into a nonempty run of `D`
followed by the tail subpattern (the search over decompositions is the regex
engine's backtracking). -/
def emailDomainMatch (D : Char → Bool) : List Char → Bool
  | [] => false
  | c :: r =>
    c == '@' && anySplit (fun d t => (!d.isEmpty) && d.all D && emailTldMatch t) r

/-- Body of the regex `^L+@D+\.[a-zA-Z]\x7b2,\x7d` for character classes `L`
(not containing `'@'`) and `D`, matched against a whole candidate segment:
some decomposition into a nonempty run of `L` followed by the
`@`-domain-tld subpattern, covering the segment exactly.  The terminal
position the body must reach is chosen by the caller (`pyDollarAnchored`),
which supplies the Python semantics of the final `$`. -/
def emailShapeMatch (L D : Char → Bool) (s : List Char) : Bool :=
  anySplit (fun l rest => (!l.isEmpty) && l.all L && emailDomainMatch D rest) s

/-- Python semantics of a pattern of the shape `^body$` under `re.match`:
`$` matches at the end of the string OR just before a newline at the end of
the string, so the body must cover the whole string, or everything before a
single trailing `'\n'`. -/
def pyDollarAnchored (body : List Char → Bool) (s : List Char) : Bool :=
  body s || (s.getLast? == some '\n' && body s.dropLast)

/-- Predicate `User._is_valid_email` (src/app/users/domain/models.py, lines 124-143):
`re.match(r'^[a-zA-Z0-9._%+-]+@[a-zA-Z0-9.-]+\.[a-zA-Z]\x7b2,\x7d$', email)`,
with `$` given its Python semantics (a single trailing newline is tolerated). -/
def User.is_valid_email (email : String) : Bool :=
  pyDollarAnchored (emailShapeMatch isLocalChar isDomainChar) email.data

/-- Python `\s` on `str`: Unicode whitespace — the six ASCII whitespace
characters plus the file/group/record/unit separators, NEL, NBSP, and the
Unicode space/line/paragraph separators. -/
def isPyWhitespace (c : Char) : Bool :=
  c = ' ' || c = '\t' || c = '\n' || c = '\r' || c = '\x0b' || c = '\x0c' ||
  (0x1c ≤ c.val && c.val ≤ 0x1f) || c.val = 0x85 || c.val = 0xa0 ||
  c.val = 0x1680 || (0x2000 ≤ c.val && c.val ≤ 0x200a) ||
  c.val = 0x2028 || c.val = 0x2029 || c.val = 0x202f || c.val = 0x205f ||
  c.val = 0x3000

/-- Modelled from the spec: the spec's §3 email pattern
`^[^@\s]+@[^@\s]+\.[a-zA-Z]\x7b2,\x7d$`, which differs from the source's
pattern in both character classes (`[^@\s]` admits every non-whitespace
character other than `'@'`), under the same Python match semantics.  Used
only to compare the spec's stated regex with the code's. -/
def specEmailPatternMatch (email : String) : Bool :=
  pyDollarAnchored
    (emailShapeMatch
      (fun c => !(c = '@' || isPyWhitespace c))
      (fun c => !(c = '@' || isPyWhitespace c)))
    email.data

/-- Entity `app.users.domain.models.User`: id, name, email (stored lowercased),
hashed password. -/
structure User where
  id : String
  name : String
  email : String
  hashed_password : String
  deriving DecidableEq, Repr

/-- Constructor `User.__init__` (src/app/users/domain/models.py, lines 41-70):
raise `InvalidEmailError` when `_is_valid_email` fails, else store the fields
with the email lowercased. -/
def User.init (user_id name email hashed_password : String) : Except PyErr User :=
  if User.is_valid_email email then
    .ok ⟨user_id, name, pyLower email, hashed_password⟩
  else
    .error (.invalidEmailError ("El email \x27" ++ email ++ "\x27 no es válido."))

/-- Command `app.auth.application.commands.login_command.LoginCommand`. -/
structure LoginCommand where
  email : String
  password : String
  otp_code : Option String := none
  deriving DecidableEq, Repr

/-- Command `app.users.application.commands.create_user_command.CreateUserCommand`. -/
structure CreateUserCommand where
  name : String
  email : String
  password : String
  user_id : Option String := none
  deriving DecidableEq, Repr

/-- Handler `handle_create_user` (src/app/users/application/commands/handlers.py,
lines 13-101).  The repository port is modelled by the current store `users`
and a `save` operation; `fresh_uuid` is the value of `str(uuid.uuid4())` drawn
at step 3.  Source steps:
  1. hash the password; any exception becomes `ValueError("Error al hashear la
     contraseña: ...")`;
  2. `user_id = str(uuid.uuid4())` — unconditionally fresh; `command.user_id`
     is never consulted;
  3. construct the `User` entity; any exception becomes `ValueError("Error al
     crear la entidad de usuario: ...")`;
  4. `user_repository.save(user)`; any exception becomes `RuntimeError(...)`;
  5. return the generated id.
On success the result carries the returned id and the new store. -/
def handle_create_user (command : CreateUserCommand)
    (hash_password_fn : String → Except PyErr String)
    (fresh_uuid : String)
    (users : List User)
    (save : User → List User → Except PyErr (List User)) :
    Except PyErr (String × List User) :=
  match hash_password_fn command.password with
  | .error e => .error (.valueError ("Error al hashear la contraseña: " ++ e.render))
  | .ok hashed_password =>
    let user_id := fresh_uuid
    match User.init user_id command.name command.email hashed_password with
    | .error e => .error (.valueError ("Error al crear la entidad de usuario: " ++ e.render))
    | .ok user =>
      match save user users with
      | .error e =>
        .error (.runtimeError ("Error al guardar el usuario en el repositorio: " ++ e.render))
      | .ok users2 => .ok (user_id, users2)

/-- In-memory repository `save`: adding a row and committing succeeds. -/
def memSave (user : User) (users : List User) : Except PyErr (List User) :=
  .ok (users ++ [user])

/-- A Python call of `handle_create_user` with an explicit argument list:
`hash_password_fn` has no default value, so a call site that omits it —
`handle_create_user(command, user_repository)` as in the users consumer —
raises `TypeError` (missing required positional argument) before the function
body runs.  A call that supplies it behaves as `handle_create_user`. -/
def handle_create_user_call (command : CreateUserCommand)
    (hash_password_fn : Option (String → Except PyErr String))
    (fresh_uuid : String)
    (users : List User)
    (save : User → List User → Except PyErr (List User)) :
    Except PyErr (String × List User) :=
  match hash_password_fn with
  | none => .error .typeError
  | some f => handle_create_user command f fresh_uuid users save

/-- Parsed `data` mapping of a command envelope: which of the four keys are
present, and with what string values. -/
structure CmdData where
  name : Option String
  email : Option String
  password : Option String
  user_id : Option String
  deriving DecidableEq, Repr

/-- Function `process_create_user_command` (src/app/users/infrastructure/
messaging/rabbitmq_consumer.py, lines 51-123).  `data` is the envelope's
`data` field (`none` models the Python value `None`, on which the subscript
at line 64 raises `TypeError`); `bcrypt_hash` models `secure_hash_password`;
`get_repo` models `get_user_repository()` from the DI container.  An
`Except.error` result is an exception escaping to the callback; an `ok`
result carries the user store after processing.  Source flow:
  - line 64 `print(f"... {command_data['name']}")`: missing key →
    `KeyError` escapes (it is outside every `try`);
  - lines 67-75: read `command_data["password"]` and hash it inside a `try`
    whose handler just returns — so a missing password key or a hashing
    failure ends processing with the store unchanged (and the message will
    be acknowledged);
  - lines 81-86: build the `CreateUserCommand`, reading `command_data["email"]`
    (missing key → `KeyError` escapes) and `command_data.get("user_id")`;
  - lines 91-98: obtain the repository; failure → logged, return;
  - lines 103-115: call `handle_create_user(command, user_repository)` —
    without `hash_password_fn` — inside a `try` whose handler just logs, so
    the `TypeError` (or any handler exception) ends processing with the store
    unchanged. -/
def process_create_user_command (data : Option CmdData)
    (bcrypt_hash : String → Except PyErr String)
    (get_repo : Except PyErr Unit)
    (users : List User)
    (fresh_uuid : String)
    (save : User → List User → Except PyErr (List User)) :
    Except PyErr (List User) :=
  match data with
  | none => .error .typeError
  | some d =>
    match d.name with
    | none => .error .keyError
    | some name =>
      match d.password with
      | none => .ok users
      | some plain_password =>
        match bcrypt_hash plain_password with
        | .error _ => .ok users
        | .ok hashed_password =>
          match d.email with
          | none => .error .keyError
          | some email =>
            let command : CreateUserCommand :=
              { name := name, email := email, password := hashed_password,
                user_id := d.user_id }
            match get_repo with
            | .error _ => .ok users
            | .ok _ =>
              match handle_create_user_call command none fresh_uuid users save with
              | .error _ => .ok users
              | .ok (_, users2) => .ok users2

/-- What the callback does with the delivery. -/
inductive Disposition where
  /-- `ch.basic_ack(...)` -/
  | ack
  /-- `ch.basic_nack(..., requeue=False)` -/
  | nackNoRequeue
  deriving DecidableEq, Repr

/-- Result of decoding the body as UTF-8 and parsing it as JSON, then reading
`message_data.get("type")` and `message_data.get("data")`: either an exception
(undecodable bytes, malformed JSON, or a non-mapping document) or the two
envelope fields. -/
def ParsedBody := Except PyErr (Option String × Option CmdData)

/-- Function `callback` (src/app/users/infrastructure/messaging/
rabbitmq_consumer.py, lines 125-183).  Decode/parse failures and any
exception escaping the processing are caught and answered with
`basic_nack(requeue=False)`; otherwise the message is acknowledged — also
when the command type is unknown, and also when the handler failed inside
`process_create_user_command` (whose `except` swallows the error).  The
returned store is the user store after the delivery. -/
def callback (parsed : ParsedBody)
    (bcrypt_hash : String → Except PyErr String)
    (get_repo : Except PyErr Unit)
    (users : List User)
    (fresh_uuid : String)
    (save : User → List User → Except PyErr (List User)) :
    Disposition × List User :=
  match parsed with
  | .error _ => (.nackNoRequeue, users)
  | .ok (command_type, command_data) =>
    if command_type = some "CreateUserCommand" then
      match process_create_user_command command_data bcrypt_hash get_repo users
          fresh_uuid save with
      | .error _ => (.nackNoRequeue, users)
      | .ok users2 => (.ack, users2)
    else
      (.ack, users)

/-- Handler `handle_login_user` (src/app/auth/application/commands/handlers.py,
lines 112-198).  The user repository port is the function `get_by_email`; the
token repository port is the pair of the `save` outcome function and the list
of saved tokens in the result.  `generate_token_fn` and `calculate_expires_fn`
are the injected collaborators, modelled by their outcome on this call;
`fresh_token_id` is `str(uuid.uuid4())` from step 6, `now` the clock reading
at the `Token` construction.  The result pairs the handler outcome (returned
access token or escaped exception) with the list of tokens persisted by the
call.  Source flow:
  1. `get_by_email`: exception → `RuntimeError` wrap;
  2. user absent → `ValueError("Credenciales inválidas.")`;
  3. verify: `False` → the same `ValueError` (raised inside `try`, re-raised
     by `except ValueError: raise`); a `ValueError` from the verifier is
     re-raised unchanged; any other exception → `RuntimeError` wrap;
  4. generate token: exception → `RuntimeError` wrap;
  5. compute expiry: exception → `RuntimeError` wrap;
  6. `Token(...)` construction: an exception here escapes UNWRAPPED (it is
     outside every `try`);
  7. save: exception → `RuntimeError` wrap;
  8. return the access token. -/
def handle_login_user (command : LoginCommand)
    (get_by_email : String → Except PyErr (Option User))
    (verify_password_fn : String → String → Except PyErr Bool)
    (generate_token_fn : Except PyErr String)
    (calculate_expires_fn : Except PyErr PyDatetime)
    (fresh_token_id : String)
    (save : Token → Except PyErr Unit)
    (now : Int) :
    Except PyErr String × List Token :=
  match get_by_email command.email with
  | .error e =>
    (.error (.runtimeError ("Error al buscar el usuario en el repositorio: " ++ e.render)), [])
  | .ok none => (.error (.valueError "Credenciales inválidas."), [])
  | .ok (some user) =>
    match verify_password_fn command.password user.hashed_password with
    | .error (.valueError m) => (.error (.valueError m), [])
    | .error e =>
      (.error (.runtimeError ("Error al verificar la contraseña: " ++ e.render)), [])
    | .ok false => (.error (.valueError "Credenciales inválidas."), [])
    | .ok true =>
      match generate_token_fn with
      | .error e =>
        (.error (.runtimeError ("Error al generar el token de acceso: " ++ e.render)), [])
      | .ok access_token =>
        match calculate_expires_fn with
        | .error e =>
          (.error (.runtimeError ("Error al calcular la expiración del token: " ++ e.render)), [])
        | .ok expires_at =>
          match Token.init fresh_token_id user.id access_token expires_at now with
          | .error e => (.error e, [])
          | .ok token =>
            match save token with
            | .error e =>
              (.error (.runtimeError ("Error al guardar el token en el repositorio: " ++ e.render)), [])
            | .ok _ => (.ok access_token, [token])

/-- Validation result DTO returned by `handle_validate_token` on success. -/
structure ValidateTokenResult where
  is_valid : Bool
  user_id : String
  expires_at : String
  deriving DecidableEq, Repr

/-- Handler `handle_validate_token` (src/app/auth/application/queries/
handlers.py, lines 22-72).  The token repository port is the function
`find_by_access_token`; the query is its `access_token` string.  The whole
body is inside `try: ... except Exception: raise RuntimeError(...)`, so any
exception from the lookup or the expiry check is re-raised wrapped.  Flow:
lookup; absent → `None`; expired → `None`; else the DTO with
`expires_at.isoformat()` (the `if token.expires_at else None` guard cannot
fire: a constructed token always has a truthy datetime). -/
def handle_validate_token
    (find_by_access_token : String → Except PyErr (Option Token))
    (access_token : String) (now : Int) :
    Except PyErr (Option ValidateTokenResult) :=
  match find_by_access_token access_token with
  | .error e => .error (.runtimeError ("Error al validar el token: " ++ e.render))
  | .ok none => .ok none
  | .ok (some token) =>
    match token.is_expired now with
    | .error e => .error (.runtimeError ("Error al validar el token: " ++ e.render))
    | .ok true => .ok none
    | .ok false => .ok (some ⟨true, token.user_id, token.expires_at.isoformat⟩)

/-- Database row of the auth `tokens` table (`TokenModel`).  The `expires_at`
column value is whatever datetime the driver returns. -/
structure TokenRow where
  id : String
  user_id : String
  access_token : String
  expires_at : PyDatetime
  deriving DecidableEq, Repr

/-- Method `SQLAlchemyTokenRepository.find_by_access_token`
(src/app/auth/infrastructure/persistence/repositories.py, lines 73-107):
`query(TokenModel).filter(TokenModel.access_token == access_token).first()`
is the first matching row; on a hit the stored expiry is made aware with
`.replace(tzinfo=timezone.utc)` and a domain `Token` is constructed through
`Token.__init__` — so a row whose expiry is not in the future makes this
method raise rather than return. -/
def sql_find_by_access_token (rows : List TokenRow) (access_token : String)
    (now : Int) : Except PyErr (Option Token) :=
  match rows.find? (fun r => r.access_token == access_token) with
  | none => .ok none
  | some row =>
    let expires_at_aware := row.expires_at.replaceUtc
    match Token.init row.id row.user_id row.access_token expires_at_aware now with
    | .error e => .error e
    | .ok token => .ok (some token)

/-- Database row of the users table (`UserModel`). -/
structure UserRow where
  id : String
  name : String
  email : String
  hashed_password : String
  deriving DecidableEq, Repr

/-- Method `SQLAlchemyUserRepository.get_by_email`
(src/app/users/infrastructure/persistence/repositories.py, lines 89-116):
`query(UserModel).filter(UserModel.email == email).first()` — an EXACT
(case-sensitive) match on the stored email; on a hit the domain `User` is
reconstructed through `User.__init__`. -/
def sql_get_by_email (rows : List UserRow) (email : String) :
    Except PyErr (Option User) :=
  match rows.find? (fun r => r.email == email) with
  | none => .ok none
  | some row =>
    match User.init row.id row.name row.email row.hashed_password with
    | .error e => .error e
    | .ok user => .ok (some user)

/-- Fixture: a users table holding one user, stored as the entity constructor
leaves it (lowercased email, hashed password `"h$pw"`). -/
def demoUserStore : List UserRow := [⟨"u1", "Ana", "ana@example.com", "h$pw"⟩]

/-- Fixture: a deterministic password verifier — the hash of `plain` is
`"h$" ++ plain`, mirroring the shape of `dummy_verify_password` (hash the
candidate, compare with the stored hash) without modelling SHA-256 itself. -/
def demoVerify (plain hashed : String) : Except PyErr Bool :=
  .ok (("h$" ++ plain) == hashed)

/-! ## General lemmas about the decomposition search and the email pattern -/

/-- Correctness of the decomposition search: `anySplit p s` holds iff some
decomposition `s = a ++ b` satisfies `p`. -/
theorem anySplit_iff (p : List Char → List Char → Bool) (s : List Char) :
    anySplit p s = true ↔ ∃ a b, s = a ++ b ∧ p a b = true := by
  induction s generalizing p with
  | nil =>
    constructor
    · intro h
      exact ⟨[], [], rfl, h⟩
    · rintro ⟨a, b, hab, hp⟩
      rcases List.append_eq_nil.mp hab.symm with ⟨rfl, rfl⟩
      exact hp
  | cons x xs ih =>
    simp only [anySplit, Bool.or_eq_true, ih]
    constructor
    · rintro (h | ⟨a, b, rfl, hp⟩)
      · exact ⟨[], x :: xs, rfl, h⟩
      · exact ⟨x :: a, b, rfl, hp⟩
    · rintro ⟨a, b, hab, hp⟩
      cases a with
      | nil =>
        left
        rw [List.nil_append] at hab
        subst hab
        exact hp
      | cons y a2 =>
        right
        rw [List.cons_append] at hab
        injection hab with h1 h2
        subst h1
        exact ⟨a2, b, h2, hp⟩

/-- Characterization of the email pattern: the regex matches exactly the
strings of the shape `local ++ "@" ++ domain ++ "." ++ tld` with `local` a
nonempty run of the class `L`, `domain` a nonempty run of `D`, and `tld` at
least two ASCII letters. -/
theorem emailShapeMatch_iff (L D : Char → Bool) (s : List Char) :
    emailShapeMatch L D s = true ↔
      ∃ l d t, s = l ++ '@' :: (d ++ '.' :: t) ∧
        l ≠ [] ∧ (∀ c ∈ l, L c = true) ∧
        d ≠ [] ∧ (∀ c ∈ d, D c = true) ∧
        2 ≤ t.length ∧ (∀ c ∈ t, isAsciiAlpha c = true) := by
  unfold emailShapeMatch
  rw [anySplit_iff]
  constructor
  · rintro ⟨l, rest, rfl, hp⟩
    rw [Bool.and_eq_true, Bool.and_eq_true] at hp
    obtain ⟨⟨hne, hall⟩, hdom⟩ := hp
    cases rest with
    | nil => simp [emailDomainMatch] at hdom
    | cons c r =>
      rw [emailDomainMatch, Bool.and_eq_true] at hdom
      obtain ⟨hc, hsplit⟩ := hdom
      rw [beq_iff_eq] at hc
      subst hc
      rw [anySplit_iff] at hsplit
      obtain ⟨d, t, rfl, hq⟩ := hsplit
      rw [Bool.and_eq_true, Bool.and_eq_true] at hq
      obtain ⟨⟨hdne, hdall⟩, htld⟩ := hq
      cases t with
      | nil => simp [emailTldMatch] at htld
      | cons c2 tl =>
        rw [emailTldMatch, Bool.and_eq_true, Bool.and_eq_true] at htld
        obtain ⟨⟨hc2, hlen⟩, htall⟩ := htld
        rw [beq_iff_eq] at hc2
        subst hc2
        refine ⟨l, d, tl, rfl, ?_, ?_, ?_, ?_, ?_, ?_⟩
        · simpa using hne
        · simpa [List.all_eq_true] using hall
        · simpa using hdne
        · simpa [List.all_eq_true] using hdall
        · simpa using hlen
        · simpa [List.all_eq_true] using htall
  · rintro ⟨l, d, t, rfl, hne, hall, hdne, hdall, hlen, htall⟩
    refine ⟨l, '@' :: (d ++ '.' :: t), rfl, ?_⟩
    rw [Bool.and_eq_true, Bool.and_eq_true]
    refine ⟨⟨by simpa using hne, by simpa [List.all_eq_true] using hall⟩, ?_⟩
    rw [emailDomainMatch, Bool.and_eq_true]
    refine ⟨by simp, ?_⟩
    rw [anySplit_iff]
    refine ⟨d, '.' :: t, rfl, ?_⟩
    rw [Bool.and_eq_true, Bool.and_eq_true]
    exact ⟨⟨by simpa using hdne, by simpa [List.all_eq_true] using hdall⟩, by
      rw [emailTldMatch, Bool.and_eq_true, Bool.and_eq_true]
      exact ⟨⟨by simp, by simpa using hlen⟩, by simpa [List.all_eq_true] using htall⟩⟩

/-- Correctness of the Python `$` anchoring: a `^body$` pattern matches the
string iff the body covers the whole string, or the string ends in a single
trailing newline and the body covers everything before it. -/
theorem pyDollarAnchored_iff (body : List Char → Bool) (s : List Char) :
    pyDollarAnchored body s = true ↔
      ∃ s2, (s = s2 ∨ s = s2 ++ ['\n']) ∧ body s2 = true := by
  rw [pyDollarAnchored, Bool.or_eq_true, Bool.and_eq_true]
  constructor
  · rintro (h | ⟨hl, hb⟩)
    · exact ⟨s, Or.inl rfl, h⟩
    · rw [beq_iff_eq] at hl
      obtain ⟨s2, rfl⟩ := List.getLast?_eq_some_iff.mp hl
      rw [List.dropLast_concat] at hb
      exact ⟨s2, Or.inr rfl, hb⟩
  · rintro ⟨s2, (rfl | rfl), hb⟩
    · exact Or.inl hb
    · refine Or.inr ⟨?_, ?_⟩
      · rw [beq_iff_eq]
        exact List.getLast?_concat s2
      · rwa [List.dropLast_concat]

/-! ## Helper lemmas -/

/-- Evaluation of `Token.is_expired`: the normalization makes the comparison
total, and the verdict is exactly `expires_at ≤ now` on the UTC timeline,
whether the stored expiry is aware or naive. -/
theorem Token.is_expired_eq (tok : Token) (now : Int) :
    tok.is_expired now = .ok (decide (tok.expires_at.t ≤ now)) := by
  by_cases h : tok.expires_at.aware
  · simp [Token.is_expired, PyDatetime.le, PyDatetime.nowUtc, h]
  · simp [Token.is_expired, PyDatetime.le, PyDatetime.replaceUtc, PyDatetime.nowUtc, h]

/-- Inversion of a successful `Token.__init__`: the fields are nonempty
strings, the expiry is aware and strictly future, and the resulting token
carries the arguments verbatim. -/
theorem Token.init_ok_inv {token_id user_id access_token : String}
    {expires_at : PyDatetime} {now : Int} {tok : Token}
    (h : Token.init token_id user_id access_token expires_at now = .ok tok) :
    tok = ⟨token_id, user_id, access_token, expires_at⟩ ∧
      expires_at.aware = true ∧ now < expires_at.t := by
  rw [Token.init] at h
  split at h
  · simp at h
  · split at h
    · simp at h
    · simp at h
    · rename_i heq
      rw [PyDatetime.le, PyDatetime.nowUtc] at heq
      by_cases haw : expires_at.aware = true
      · rw [if_pos (by simp [haw])] at heq
        simp only [Except.ok.injEq, decide_eq_false_iff_not] at heq
        injection h with h2
        exact ⟨h2.symm, haw, by omega⟩
      · rw [if_neg (by simpa using haw)] at heq
        simp at heq

/-- On every branch of `handle_login_user` that ends in an exception, the
list of persisted tokens is empty. -/
theorem handle_login_user_error_no_tokens (command : LoginCommand)
    (get_by_email : String → Except PyErr (Option User))
    (verify_password_fn : String → String → Except PyErr Bool)
    (generate_token_fn : Except PyErr String)
    (calculate_expires_fn : Except PyErr PyDatetime)
    (fresh_token_id : String) (save : Token → Except PyErr Unit) (now : Int)
    (e : PyErr) (tokens : List Token)
    (h : handle_login_user command get_by_email verify_password_fn
        generate_token_fn calculate_expires_fn fresh_token_id save now =
      (.error e, tokens)) :
    tokens = [] := by
  rw [handle_login_user] at h
  repeat' split at h
  all_goals
    first
      | (rw [Prod.mk.injEq] at h; exact h.2.symm)
      | (rw [Prod.mk.injEq] at h; exact absurd h.1 (by simp))

/-! ## Claim theorems -/

/-- C10: for every `Token`, `is_expired()` at instant `now` is true iff the
timezone-normalized comparison gives `expires_at ≤ now`; it is false at the
instant a successful construction happened; and it is monotone in time — once
expired, expired forever. -/
theorem token_is_expired_correct :
    (∀ (tok : Token) (now : Int),
        tok.is_expired now = .ok (decide (tok.expires_at.t ≤ now))) ∧
    (∀ (token_id user_id access_token : String) (expires_at : PyDatetime)
        (now : Int) (tok : Token),
        Token.init token_id user_id access_token expires_at now = .ok tok →
        tok.is_expired now = .ok false) ∧
    (∀ (tok : Token) (t1 t2 : Int), t1 ≤ t2 →
        tok.is_expired t1 = .ok true → tok.is_expired t2 = .ok true) := by
  refine ⟨Token.is_expired_eq, ?_, ?_⟩
  · intro token_id user_id access_token expires_at now tok h
    obtain ⟨rfl, haw, hfut⟩ := Token.init_ok_inv h
    rw [Token.is_expired_eq]
    simp only [Except.ok.injEq, decide_eq_false_iff_not]
    omega
  · intro tok t1 t2 h12 h1
    rw [Token.is_expired_eq] at h1 ⊢
    simp only [Except.ok.injEq, decide_eq_true_eq] at h1 ⊢
    omega

/-- Witness for C10 at concrete inputs: a token constructed at instant 0 with
expiry 3600 is not expired at 0, and expiry at 4000 implies expiry at 5000. -/
theorem token_is_expired_correct_witness :
    Token.init "t1" "u1" "tok" ⟨3600, true⟩ 0 = .ok ⟨"t1", "u1", "tok", ⟨3600, true⟩⟩ ∧
    Token.is_expired ⟨"t1", "u1", "tok", ⟨3600, true⟩⟩ 0 = .ok false ∧
    (4000 : Int) ≤ 5000 ∧
    Token.is_expired ⟨"t1", "u1", "tok", ⟨3600, true⟩⟩ 4000 = .ok true ∧
    Token.is_expired ⟨"t1", "u1", "tok", ⟨3600, true⟩⟩ 5000 = .ok true :=
  ⟨by decide,
   token_is_expired_correct.2.1 "t1" "u1" "tok" ⟨3600, true⟩ 0 _ (by decide),
   by decide,
   by decide,
   token_is_expired_correct.2.2 ⟨"t1", "u1", "tok", ⟨3600, true⟩⟩ 4000 5000
     (by decide) (by decide)⟩

/-- C4: the first half of the claim holds — `Token.is_expired` normalizes a
naive expiry to UTC and its comparison is total (never raises) — but the
expiry-versus-now check in `Token.__init__` does NOT normalize: with the naive
expiry produced by the default `calculate_expires_at`, construction raises
`TypeError`, while the same instant made timezone-aware is accepted. -/
theorem token_expiry_naive_typeerror :
    (∀ (tok : Token) (now : Int), ∃ b, tok.is_expired now = .ok b) ∧
    calculate_expires_at 1 1000 = ⟨4600, false⟩ ∧
    Token.init "t1" "u1" "tok" (calculate_expires_at 1 1000) 1000 = .error .typeError ∧
    Token.init "t1" "u1" "tok" ⟨4600, true⟩ 1000 = .ok ⟨"t1", "u1", "tok", ⟨4600, true⟩⟩ := by
  refine ⟨?_, by decide, by decide, by decide⟩
  intro tok now
  exact ⟨_, Token.is_expired_eq tok now⟩

/-- C3: evaluation of `handle_validate_token` over the SQLAlchemy lookup.
An unknown token yields `None` and a stored non-expired token yields the
`is_valid` DTO, but a stored row whose `expires_at` is in the past makes
`find_by_access_token` raise (the `Token` rehydration rejects a non-future
expiry) and the handler re-raises it wrapped in `RuntimeError`, instead of
returning `None` as claimed.  The handler's own expired-token branch returns
`None` only when the token expires between rehydration (here at instant 400)
and the expiry check (here at instant 600). -/
theorem validate_token_expired_row_raises :
    handle_validate_token
        (sql_find_by_access_token [⟨"i1", "u1", "tok", ⟨0, false⟩⟩] · 100) "tok" 100 =
      .error (.runtimeError
        "Error al validar el token: La fecha de expiración debe ser futura.") ∧
    handle_validate_token
        (sql_find_by_access_token [⟨"i1", "u1", "tok", ⟨0, false⟩⟩] · 100) "unknown" 100 =
      .ok none ∧
    handle_validate_token
        (sql_find_by_access_token [⟨"i1", "u1", "tok", ⟨500, false⟩⟩] · 100) "tok" 100 =
      .ok (some ⟨true, "u1", "500+00:00"⟩) ∧
    handle_validate_token
        (sql_find_by_access_token [⟨"i1", "u1", "tok", ⟨500, false⟩⟩] · 400) "tok" 600 =
      .ok none := by
  decide

/-- Evaluation of a successful `Token.__init__`: nonempty fields and an
aware, strictly-future expiry construct the token verbatim. -/
theorem Token.init_ok (token_id user_id access_token : String)
    (expires_at : PyDatetime) (now : Int)
    (h1 : token_id ≠ "") (h2 : user_id ≠ "") (h3 : access_token ≠ "")
    (haw : expires_at.aware = true) (hfut : now < expires_at.t) :
    Token.init token_id user_id access_token expires_at now =
      .ok ⟨token_id, user_id, access_token, expires_at⟩ := by
  rw [Token.init, if_neg (by push_neg; exact ⟨h1, h2, h3⟩), PyDatetime.le,
    PyDatetime.nowUtc, if_pos (by simp [haw])]
  rw [show decide (expires_at.t ≤ ({ t := now, aware := true } : PyDatetime).t) = false from
    decide_eq_false_iff_not.mpr (by simp only [PyDatetime.t]; omega)]

/-- C2: login with an unknown email and login with a known email whose
password fails verification raise the same error kind (`ValueError`) with
byte-identical messages, and both runs persist zero tokens — the two failures
are indistinguishable to the caller. -/
theorem login_failures_indistinguishable
    (get_by_email : String → Except PyErr (Option User))
    (verify_password_fn : String → String → Except PyErr Bool)
    (generate_token_fn : Except PyErr String)
    (calculate_expires_fn : Except PyErr PyDatetime)
    (fid1 fid2 : String) (save : Token → Except PyErr Unit) (now1 now2 : Int)
    (email1 password1 email2 password2 : String) (user : User)
    (h1 : get_by_email email1 = .ok none)
    (h2 : get_by_email email2 = .ok (some user))
    (h3 : verify_password_fn password2 user.hashed_password = .ok false) :
    handle_login_user ⟨email1, password1, none⟩ get_by_email verify_password_fn
        generate_token_fn calculate_expires_fn fid1 save now1 =
      (.error (.valueError "Credenciales inválidas."), []) ∧
    handle_login_user ⟨email2, password2, none⟩ get_by_email verify_password_fn
        generate_token_fn calculate_expires_fn fid2 save now2 =
      (.error (.valueError "Credenciales inválidas."), []) := by
  constructor
  · simp [handle_login_user, h1]
  · simp [handle_login_user, h2, h3]

/-- Witness for C2: a concrete store (`demoUserStore`, reached through the
SQLAlchemy lookup) where `bob@example.com` is unknown and
`ana@example.com` is present with a wrong password supplied. -/
theorem login_failures_indistinguishable_witness :
    handle_login_user ⟨"bob@example.com", "pw", none⟩
        (sql_get_by_email demoUserStore) demoVerify (.ok "tok")
        (.ok ⟨3600, true⟩) "t1" (fun _ => .ok ()) 0 =
      (.error (.valueError "Credenciales inválidas."), []) ∧
    handle_login_user ⟨"ana@example.com", "wrong", none⟩
        (sql_get_by_email demoUserStore) demoVerify (.ok "tok")
        (.ok ⟨3600, true⟩) "t2" (fun _ => .ok ()) 0 =
      (.error (.valueError "Credenciales inválidas."), []) :=
  login_failures_indistinguishable (sql_get_by_email demoUserStore) demoVerify
    (.ok "tok") (.ok ⟨3600, true⟩) "t1" "t2" (fun _ => .ok ()) 0 0
    "bob@example.com" "pw" "ana@example.com" "wrong"
    ⟨"u1", "Ana", "ana@example.com", "h$pw"⟩ (by decide) (by decide) (by decide)

/-- C1 counterexample: a user store whose single user matches the
`LoginCommand`'s email and whose stored hash verifies the password — yet with
the code's own `calculate_expires_at` (naive, exactly what both the default
argument and the API route inject), `handle_login_user` raises `TypeError`
from `Token` construction and persists zero tokens, instead of returning the
generated token string and persisting one. -/
theorem login_success_default_expiry_counterexample :
    sql_get_by_email demoUserStore "ana@example.com" =
      .ok (some ⟨"u1", "Ana", "ana@example.com", "h$pw"⟩) ∧
    demoVerify "pw" "h$pw" = .ok true ∧
    handle_login_user ⟨"ana@example.com", "pw", none⟩
        (sql_get_by_email demoUserStore) demoVerify (.ok "generated-token")
        (.ok (calculate_expires_at 1 1000)) "t1" (fun _ => .ok ()) 1000 =
      (.error .typeError, []) := by
  decide

/-- C1 amended: when the injected collaborators meet their contracts from
spec §4.4 — the generator returns a nonempty token string, the expiry
calculator a timezone-aware strictly-future timestamp, the fresh token id and
the matched user id are nonempty, and the repository save succeeds — a login
whose email is found and whose password verifies returns the generated token
and persists exactly one `Token` carrying the matched user's id and that
token string; and on every branch that raises, zero tokens are persisted. -/
theorem login_success_persists_one_token
    (command : LoginCommand)
    (get_by_email : String → Except PyErr (Option User))
    (verify_password_fn : String → String → Except PyErr Bool)
    (generate_token_fn : Except PyErr String)
    (calculate_expires_fn : Except PyErr PyDatetime)
    (fresh_token_id : String) (save : Token → Except PyErr Unit) (now : Int)
    (user : User) (access_token : String) (expires_at : PyDatetime)
    (hu : get_by_email command.email = .ok (some user))
    (hv : verify_password_fn command.password user.hashed_password = .ok true)
    (hg : generate_token_fn = .ok access_token)
    (htok : access_token ≠ "")
    (hc : calculate_expires_fn = .ok expires_at)
    (haw : expires_at.aware = true)
    (hfut : now < expires_at.t)
    (hid : fresh_token_id ≠ "")
    (huid : user.id ≠ "")
    (hs : save ⟨fresh_token_id, user.id, access_token, expires_at⟩ = .ok ()) :
    handle_login_user command get_by_email verify_password_fn generate_token_fn
        calculate_expires_fn fresh_token_id save now =
      (.ok access_token, [⟨fresh_token_id, user.id, access_token, expires_at⟩]) ∧
    (∀ (command2 : LoginCommand)
        (get2 : String → Except PyErr (Option User))
        (verify2 : String → String → Except PyErr Bool)
        (gen2 : Except PyErr String) (calc2 : Except PyErr PyDatetime)
        (fid2 : String) (save2 : Token → Except PyErr Unit) (now2 : Int)
        (e : PyErr) (tokens : List Token),
        handle_login_user command2 get2 verify2 gen2 calc2 fid2 save2 now2 =
          (.error e, tokens) → tokens = []) := by
  constructor
  · simp only [handle_login_user, hu, hv, hg, hc,
      Token.init_ok fresh_token_id user.id access_token expires_at now hid huid
        htok haw hfut, hs]
  · intro command2 get2 verify2 gen2 calc2 fid2 save2 now2 e tokens h
    exact handle_login_user_error_no_tokens command2 get2 verify2 gen2 calc2
      fid2 save2 now2 e tokens h

/-- Witness for C1 (amended) at concrete inputs: the demo store with the
correct password, an aware future expiry, and an in-memory save. -/
theorem login_success_persists_one_token_witness :
    handle_login_user ⟨"ana@example.com", "pw", none⟩
        (sql_get_by_email demoUserStore) demoVerify (.ok "generated-token")
        (.ok ⟨4600, true⟩) "t1" (fun _ => .ok ()) 1000 =
      (.ok "generated-token",
        [⟨"t1", "u1", "generated-token", ⟨4600, true⟩⟩]) :=
  (login_success_persists_one_token ⟨"ana@example.com", "pw", none⟩
    (sql_get_by_email demoUserStore) demoVerify (.ok "generated-token")
    (.ok ⟨4600, true⟩) "t1" (fun _ => .ok ()) 1000
    ⟨"u1", "Ana", "ana@example.com", "h$pw"⟩ "generated-token" ⟨4600, true⟩
    (by decide) (by decide) rfl (by decide) rfl (by decide) (by decide)
    (by decide) (by decide) rfl).1

/-- C9 counterexample: `a!b@c.com` matches the spec's stated pattern
`^[^@\s]+@[^@\s]+\.[a-zA-Z]\x7b2,\x7d$` (the `!` is neither `'@'` nor
whitespace), yet `User.__init__` rejects it — the code validates against
`^[a-zA-Z0-9._%+-]+@[a-zA-Z0-9.-]+\.[a-zA-Z]\x7b2,\x7d$`, whose local-part
class does not contain `'!'`. -/
theorem email_regex_spec_counterexample :
    specEmailPatternMatch "a!b@c.com" = true ∧
    User.init "u1" "Ana" "a!b@c.com" "h" =
      .error (.invalidEmailError "El email \x27a!b@c.com\x27 no es válido.") := by
  decide

/-- C9 amended: for every id, name, password and email, `User.__init__`
succeeds exactly when the email matches the CODE's pattern
`^[a-zA-Z0-9._%+-]+@[a-zA-Z0-9.-]+\.[a-zA-Z]\x7b2,\x7d$` under Python match
semantics: the string — or, per `$`, the string minus a single trailing
newline — decomposes as a nonempty run of `[a-zA-Z0-9._%+-]`, an `'@'`, a
nonempty run of `[a-zA-Z0-9.-]`, a dot, and at least two letters; and the
constructed user carries the input email lowercased. -/
theorem user_init_email_validation (user_id name email hashed_password : String) :
    ((∃ u, User.init user_id name email hashed_password = .ok u) ↔
      (∃ s, (email.data = s ∨ email.data = s ++ ['\n']) ∧
        ∃ l d t, s = l ++ '@' :: (d ++ '.' :: t) ∧
          l ≠ [] ∧ (∀ c ∈ l, isLocalChar c = true) ∧
          d ≠ [] ∧ (∀ c ∈ d, isDomainChar c = true) ∧
          2 ≤ t.length ∧ (∀ c ∈ t, isAsciiAlpha c = true))) ∧
    (∀ u, User.init user_id name email hashed_password = .ok u →
      u = ⟨user_id, name, pyLower email, hashed_password⟩) := by
  have hiff : User.is_valid_email email = true ↔
      ∃ s, (email.data = s ∨ email.data = s ++ ['\n']) ∧
        ∃ l d t, s = l ++ '@' :: (d ++ '.' :: t) ∧
          l ≠ [] ∧ (∀ c ∈ l, isLocalChar c = true) ∧
          d ≠ [] ∧ (∀ c ∈ d, isDomainChar c = true) ∧
          2 ≤ t.length ∧ (∀ c ∈ t, isAsciiAlpha c = true) := by
    rw [User.is_valid_email, pyDollarAnchored_iff]
    constructor
    · rintro ⟨s2, hd, hm⟩
      exact ⟨s2, hd, (emailShapeMatch_iff _ _ _).mp hm⟩
    · rintro ⟨s2, hd, hm⟩
      exact ⟨s2, hd, (emailShapeMatch_iff _ _ _).mpr hm⟩
  constructor
  · constructor
    · rintro ⟨u, hu⟩
      rw [User.init] at hu
      split at hu
      · rename_i h
        exact hiff.mp h
      · cases hu
    · intro h
      have hv : User.is_valid_email email = true := hiff.mpr h
      exact ⟨_, by rw [User.init, if_pos hv]⟩
  · intro u hu
    rw [User.init] at hu
    split at hu
    · injection hu with h2
      exact h2.symm
    · cases hu

/-- Witness for C9 (amended) at the concrete email `Ana@Example.com`:
construction succeeds and stores the lowercased email. -/
theorem user_init_email_validation_witness :
    (⟨"u1", "Ana", "ana@example.com", "h"⟩ : User) =
      ⟨"u1", "Ana", pyLower "Ana@Example.com", "h"⟩ :=
  (user_init_email_validation "u1" "Ana" "Ana@Example.com" "h").2
    ⟨"u1", "Ana", "ana@example.com", "h"⟩ (by decide)

/-- Independently of the command's `user_id` field, a successful
`handle_create_user` always returns the freshly drawn uuid as the new
user's id — the supplied id is never consulted. -/
theorem handle_create_user_returns_fresh_id (command : CreateUserCommand)
    (hash_password_fn : String → Except PyErr String)
    (fresh_uuid : String) (users : List User)
    (save : User → List User → Except PyErr (List User))
    (uid : String) (users2 : List User)
    (h : handle_create_user command hash_password_fn fresh_uuid users save =
      .ok (uid, users2)) :
    uid = fresh_uuid := by
  rw [handle_create_user] at h
  split at h
  · exact absurd h (by simp)
  · simp only at h
    split at h
    · exact absurd h (by simp)
    · split at h
      · exact absurd h (by simp)
      · simp only [Except.ok.injEq, Prod.mk.injEq] at h
        exact h.1.symm

/-- C5: `handle_create_user` resolves the new user's id as `str(uuid.uuid4())`
unconditionally; delivering the same command (with the same externally
supplied id `supplied-id`) twice creates two users with distinct fresh ids,
neither equal to the supplied one — the idempotent-retry behavior the claim
describes does not hold. -/
theorem create_user_ignores_supplied_id :
    handle_create_user ⟨"Ana", "ana@example.com", "pw", some "supplied-id"⟩
        (fun p => .ok ("h$" ++ p)) "fresh-1" [] memSave =
      .ok ("fresh-1", [⟨"fresh-1", "Ana", "ana@example.com", "h$pw"⟩]) ∧
    handle_create_user ⟨"Ana", "ana@example.com", "pw", some "supplied-id"⟩
        (fun p => .ok ("h$" ++ p)) "fresh-2"
        [⟨"fresh-1", "Ana", "ana@example.com", "h$pw"⟩] memSave =
      .ok ("fresh-2", [⟨"fresh-1", "Ana", "ana@example.com", "h$pw"⟩,
        ⟨"fresh-2", "Ana", "ana@example.com", "h$pw"⟩]) ∧
    ("fresh-1" : String) ≠ "supplied-id" ∧
    ("fresh-2" : String) ≠ "supplied-id" ∧
    ("fresh-1" : String) ≠ "fresh-2" := by
  decide

/-- C6 counterexample: a well-formed `CreateUserCommand` envelope whose
dispatch raises (here the ever-present `TypeError` from the missing
`hash_password_fn` argument) is ACKNOWLEDGED by the callback — the exception
is swallowed inside `process_create_user_command` — not rejected without
requeue as the claim states. -/
theorem consumer_handler_exception_ack_counterexample :
    callback (.ok (some "CreateUserCommand",
        some ⟨some "Ana", some "ana@example.com", some "secret123", none⟩))
      (fun p => .ok ("bcrypt$" ++ p)) (.ok ()) [] "fresh-1" memSave = (.ack, []) ∧
    handle_create_user_call ⟨"Ana", "ana@example.com", "bcrypt$secret123", none⟩
        none "fresh-1" [] memSave = .error .typeError ∧
    Disposition.ack ≠ Disposition.nackNoRequeue := by
  decide

/-- C6 amended: an undecodable or unparsable body is rejected without requeue
with the store untouched (no handler runs) and the callback returns normally;
a `CreateUserCommand` envelope whose processing returns is acknowledged with
the resulting store; and a well-formed envelope on which the dispatched
handler raises is acknowledged with the store unchanged — the handler
exception is logged inside `process_create_user_command`, not rejected. -/
theorem consumer_callback_disposition
    (err : PyErr) (bcrypt_hash : String → Except PyErr String)
    (get_repo : Except PyErr Unit) (users : List User) (fresh_uuid : String)
    (save : User → List User → Except PyErr (List User))
    (n em pw hv : String) (uid : Option String)
    (hhash : bcrypt_hash pw = .ok hv) :
    callback (.error err) bcrypt_hash get_repo users fresh_uuid save =
      (.nackNoRequeue, users) ∧
    (∀ (data : Option CmdData) (users2 : List User),
        process_create_user_command data bcrypt_hash get_repo users fresh_uuid
          save = .ok users2 →
        callback (.ok (some "CreateUserCommand", data)) bcrypt_hash get_repo
          users fresh_uuid save = (.ack, users2)) ∧
    callback (.ok (some "CreateUserCommand", some ⟨some n, some em, some pw, uid⟩))
        bcrypt_hash (.ok ()) users fresh_uuid save = (.ack, users) := by
  refine ⟨by simp [callback], ?_, ?_⟩
  · intro data users2 h
    simp [callback, h]
  · simp [callback, process_create_user_command, hhash, handle_create_user_call]

/-- Witness for C6 (amended) at concrete inputs. -/
theorem consumer_callback_disposition_witness :
    callback (.error .keyError) (fun p => .ok ("bcrypt$" ++ p)) (.ok ()) []
        "fresh-1" memSave = (.nackNoRequeue, []) ∧
    (∀ (data : Option CmdData) (users2 : List User),
        process_create_user_command data (fun p => .ok ("bcrypt$" ++ p)) (.ok ())
          [] "fresh-1" memSave = .ok users2 →
        callback (.ok (some "CreateUserCommand", data))
          (fun p => .ok ("bcrypt$" ++ p)) (.ok ()) [] "fresh-1" memSave =
          (.ack, users2)) ∧
    callback (.ok (some "CreateUserCommand",
        some ⟨some "Ana", some "ana@example.com", some "secret123", none⟩))
      (fun p => .ok ("bcrypt$" ++ p)) (.ok ()) [] "fresh-1" memSave =
      (.ack, []) :=
  consumer_callback_disposition .keyError (fun p => .ok ("bcrypt$" ++ p))
    (.ok ()) [] "fresh-1" memSave "Ana" "ana@example.com" "secret123"
    "bcrypt$secret123" none (by decide)

/-- C7: the consumer's dispatch calls `handle_create_user` without the
required `hash_password_fn` argument, so every dispatch raises `TypeError`
before the handler body runs; `process_create_user_command` catches and logs
it and returns with the user store unchanged, after which the callback
acknowledges the message — so no `User` is ever persisted from the queue,
yet the messages are acked. -/
theorem consumer_dispatch_missing_argument
    (n em pw hv : String) (uid : Option String)
    (bcrypt_hash : String → Except PyErr String)
    (users : List User) (fresh_uuid : String)
    (save : User → List User → Except PyErr (List User))
    (hhash : bcrypt_hash pw = .ok hv) :
    (∀ (command : CreateUserCommand) (users3 : List User),
        handle_create_user_call command none fresh_uuid users3 save =
          .error .typeError) ∧
    process_create_user_command (some ⟨some n, some em, some pw, uid⟩)
        bcrypt_hash (.ok ()) users fresh_uuid save = .ok users ∧
    callback (.ok (some "CreateUserCommand", some ⟨some n, some em, some pw, uid⟩))
        bcrypt_hash (.ok ()) users fresh_uuid save = (.ack, users) := by
  refine ⟨fun _ _ => rfl, ?_, ?_⟩
  · simp [process_create_user_command, hhash, handle_create_user_call]
  · simp [callback, process_create_user_command, hhash, handle_create_user_call]

/-- Witness for C7 at the concrete envelope from the spec's end-to-end
scenario. -/
theorem consumer_dispatch_missing_argument_witness :
    (∀ (command : CreateUserCommand) (users3 : List User),
        handle_create_user_call command none "u-1" users3 memSave =
          .error .typeError) ∧
    process_create_user_command
        (some ⟨some "Ana", some "Ana@Example.com", some "secret123", none⟩)
        (fun p => .ok ("bcrypt$" ++ p)) (.ok ()) [] "u-1" memSave = .ok [] ∧
    callback (.ok (some "CreateUserCommand",
        some ⟨some "Ana", some "Ana@Example.com", some "secret123", none⟩))
      (fun p => .ok ("bcrypt$" ++ p)) (.ok ()) [] "u-1" memSave = (.ack, []) :=
  consumer_dispatch_missing_argument "Ana" "Ana@Example.com" "secret123"
    "bcrypt$secret123" none (fun p => .ok ("bcrypt$" ++ p)) [] "u-1" memSave
    (by decide)

/-- C8: evaluation of the end-to-end scenario.  (1) Delivering the envelope
with name `Ana`, email `Ana@Example.com`, password `secret123` to the users
consumer acknowledges the message but persists NO user (the dispatch raises
`TypeError`, swallowed).  (2) Even granting a store that does contain the
user with the lowercased email `ana@example.com` (as registration would
produce it), the subsequent `Login(email="Ana@Example.com")` fails:
`get_by_email` matches the stored email exactly and case-sensitively, finds
nothing, and the handler raises the generic invalid-credentials error with
zero tokens persisted — even under a verifier that would accept the password
and an aware future expiry.  (3) Construction does lowercase the mixed-case
email, which is the part of the claim that holds. -/
theorem end_to_end_mixed_case_login_eval :
    callback (.ok (some "CreateUserCommand",
        some ⟨some "Ana", some "Ana@Example.com", some "secret123", none⟩))
      (fun p => .ok ("h$" ++ p)) (.ok ()) [] "u-1" memSave = (.ack, []) ∧
    sql_get_by_email demoUserStore "Ana@Example.com" = .ok none ∧
    handle_login_user ⟨"Ana@Example.com", "secret123", none⟩
        (sql_get_by_email demoUserStore) (fun _ _ => .ok true) (.ok "tok123")
        (.ok ⟨7200, true⟩) "t-1" (fun _ => .ok ()) 1000 =
      (.error (.valueError "Credenciales inválidas."), []) ∧
    User.init "u-2" "Ana" "Ana@Example.com" "h$secret123" =
      .ok ⟨"u-2", "Ana", "ana@example.com", "h$secret123"⟩ := by
  decide
